import Mathlib

/-!
Shallow embedding of `src/ap_swarm_launcher/sitl.py` (simulated drone swarm
launcher).

Python floats are IEEE-754 binary64 values, i.e. dyadic rationals.  They are
embedded exactly as `PyFloat`, a pair `m / 2 ^ e` with integer arithmetic
(decimal float literals are converted to the nearest binary64 value first,
exactly as CPython does, by `PyFloat.ofDecimal`).  All operations the launcher
performs on floats (fixed-point formatting, `str`, `%`, `int` truncation) are
closed over dyadic rationals and are defined here by exact integer
computations; the one operation CPython itself rounds — the `mod += 360.0`
correction inside float `%` — is modelled by an explicit binary64 rounding
step (`roundDouble`).  File contents and rendered strings are embedded as
`String`s (the parameter files are UTF-8 text).
-/

namespace APSwarm

/-! ### Decimal rendering of numbers (embeds Python `str` and format specs) -/

/-- The character for a decimal digit `d < 10`. -/
def digitChar (d : ℕ) : Char := Char.ofNat (48 + d)

/-- Fuel-driven most-significant-first decimal digit accumulator.
`fuel = n` is always enough fuel, since `n / 10` loses at least one digit. -/
def natStrAux : ℕ → ℕ → List Char → List Char
  | 0, _, acc => acc
  | _ + 1, 0, acc => acc
  | fuel + 1, n, acc => natStrAux fuel (n / 10) (digitChar (n % 10) :: acc)

/-- Decimal rendering of a natural number (embeds Python `str` on a
non-negative `int`). -/
def natStr (n : ℕ) : String :=
  if n = 0 then "0" else ⟨natStrAux n n []⟩

/-- Decimal rendering of an integer (embeds Python `str` on an `int`). -/
def intStr (i : ℤ) : String :=
  if i < 0 then "-" ++ natStr i.natAbs else natStr i.natAbs

/-- Nearest integer to `a / b` for `b > 0`, ties to even: the rounding used
both by IEEE-754 binary64 conversion and by CPython's fixed-point float
formatting (CPython formats the exact value of the double, correctly
rounded). -/
def rndHalfEven (a b : ℤ) : ℤ :=
  let f := a / b
  let r := a % b
  if 2 * r < b then f
  else if b < 2 * r then f + 1
  else if f % 2 = 0 then f else f + 1

/-- Fuel-driven floor of the base-2 logarithm. -/
def floorLog2Aux : ℕ → ℕ → ℕ
  | 0, _ => 0
  | fuel + 1, n => if n ≤ 1 then 0 else floorLog2Aux fuel (n / 2) + 1

/-- Floor of the base-2 log: `⌊log₂ n⌋` for `n ≥ 1` (and `0` for `n = 0`). -/
def floorLog2 (n : ℕ) : ℕ := floorLog2Aux n n

/-- A Python float: the exact dyadic rational `m / 2 ^ e`.  The binary64
values form a subset of these; every number the launcher manipulates is of
this shape. -/
structure PyFloat where
  m : ℤ
  e : ℕ
deriving DecidableEq

/-- The exact rational value of a `PyFloat` (used in specifications only). -/
def PyFloat.val (x : PyFloat) : ℚ := (x.m : ℚ) / (2 : ℚ) ^ x.e

/-- The binary64 value nearest to the decimal literal `n / 10 ^ p` (embeds a
Python float literal, e.g. `ofDecimal 12345 2` embeds `123.45`).  Valid for
`|n / 10 ^ p|` in `{0} ∪ [1, 2 ^ 53)`, which covers every literal the
launcher and its claims handle: the value is scaled so that the 53-bit
significand grid has unit spacing, rounded ties-to-even, and kept at that
scale. -/
def PyFloat.ofDecimal (n : ℤ) (p : ℕ) : PyFloat :=
  let e := floorLog2 (n.natAbs / 10 ^ p)
  ⟨rndHalfEven (n * 2 ^ (52 - e)) (10 ^ p), 52 - e⟩

/- Cross-checked against CPython: `Fraction(123.45) = 8687021468732621/2**46`,
`Fraction(47.1234567) = 6632036938579053/2**47`,
`Fraction(19.7654321) = 5563474540023553/2**48`. -/

/-- Left-pad a string with zeros to length `d`. -/
def padZeros (d : ℕ) (s : String) : String :=
  ⟨List.replicate (d - s.length) '0'⟩ ++ s

/-- Render `m / 10 ^ k` (with `m : ℕ`) as a decimal string with `k` digits
after the point (no point when `k = 0`). -/
def withDot (m k : ℕ) : String :=
  if k = 0 then natStr m
  else natStr (m / 10 ^ k) ++ "." ++ padZeros k (natStr (m % 10 ^ k))

/-- Fixed-point rendering with `d` digits after the decimal point: embeds the
Python format spec `:.df`, which rounds the exact value of the float to `d`
decimal digits, ties to even, and keeps the sign of the value. -/
def formatFixed (x : PyFloat) (d : ℕ) : String :=
  let n := rndHalfEven (x.m * 10 ^ d) (2 ^ x.e)
  (if x.m < 0 then "-" else "") ++ withDot n.natAbs d

/-- Fuel-driven search for the least `k ≥ k₀` with `den ∣ 10 ^ k`. -/
def decExpAux (den : ℕ) : ℕ → ℕ → Option ℕ
  | 0, _ => none
  | fuel + 1, k => if 10 ^ k % den = 0 then some k else decExpAux den fuel (k + 1)

/-- Least `k` such that `den` divides `10 ^ k`, if any below 64.  The reduced
denominator of a dyadic rational is a power of two, and every float the
launcher renders through `str` has a short finite decimal expansion. -/
def decExp (den : ℕ) : Option ℕ := decExpAux den 64 0

/-- Rendering of a Python number by `str()`.  The fraction is first reduced;
an integral value renders as an integer, and a non-integral value with a
finite decimal expansion renders as that exact expansion.  (CPython prints
the shortest decimal that round-trips to the same float; the two agree on
every value whose shortest representation is exact, which covers every value
these claims inspect, and no claim depends on the digits of any other value.
Likewise, CPython renders a float-typed integral value as e.g. `1.0` while an
`int` renders as `1`; the launcher's `speedup` default is the `int` `1`, and
no claim inspects the digits of a float-typed integral value.)
`pyNumStrRed` renders an already-reduced fraction; `pyNumStr` reduces the
dyadic fraction and hands it over. -/
def pyNumStrRed (num : ℤ) (den : ℕ) : String :=
  if den = 1 then intStr num
  else
    match decExp den with
    | some k =>
        (if num < 0 then "-" else "") ++ withDot (num.natAbs * (10 ^ k / den)) k
    | none => intStr num ++ "/" ++ natStr den

def pyNumStr (x : PyFloat) : String :=
  pyNumStrRed (x.m / (Nat.gcd x.m.natAbs (2 ^ x.e) : ℤ))
    (2 ^ x.e / Nat.gcd x.m.natAbs (2 ^ x.e))

/-- C `fmod` on the numerators of dyadics with a common exponent: the
remainder of `m` by `M` carrying the sign of the dividend `m`.  IEEE `fmod`
is always exact, so this integer computation is the whole story: for `M > 0`
the result lies in `(-M, 0]` when `m < 0` and in `[0, M)` otherwise. -/
def fmodNum (m M : ℤ) : ℤ :=
  if m < 0 then -((-m) % M) else m % M

/-- Round a dyadic `m / 2 ^ e` to the IEEE-754 binary64 grid, ties to even:
models the one *rounded* float operation inside CPython's float modulus (the
`mod += wx` correction in `float_rem`).  A numerator of at most 53 bits is
already on the grid and is returned unchanged; otherwise it is rounded to the
grid with spacing `2 ^ (L - 52)`, where `L` is the numerator's bit length
minus one. -/
def roundDouble (x : PyFloat) : PyFloat :=
  if floorLog2 x.m.natAbs ≤ 52 then x
  else
    ⟨x.m.sign * (rndHalfEven (x.m.natAbs : ℤ)
        (2 ^ (floorLog2 x.m.natAbs - 52)) * 2 ^ (floorLog2 x.m.natAbs - 52)),
      x.e⟩

/-- Python `x % 360.0` on a float `x` (the modulus the swarm constructor
applies to the default heading), following CPython's `float_rem`: first
`fmod(x, 360.0)` — exact, sign of `x` — then, when the remainder is negative,
one *rounded* float addition `mod += 360.0`; a zero remainder yields
(positive) zero.  Because of that rounding the result lies in `[0, 360]`,
with `360.0` itself attained for tiny negative `x` (e.g. CPython evaluates
`-2**-60 % 360` to exactly `360.0`). -/
def PyFloat.mod360 (x : PyFloat) : PyFloat :=
  if fmodNum x.m (360 * 2 ^ x.e) = 0 then ⟨0, x.e⟩
  else if fmodNum x.m (360 * 2 ^ x.e) < 0 then
    roundDouble ⟨fmodNum x.m (360 * 2 ^ x.e) + 360 * 2 ^ x.e, x.e⟩
  else ⟨fmodNum x.m (360 * 2 ^ x.e), x.e⟩

/-- Python `int(x)` on a float: truncation toward zero. -/
def PyFloat.trunc (x : PyFloat) : ℤ := Int.tdiv x.m (2 ^ x.e)

/-! ### `create_args_for_simulator` (sitl.py lines 36-98) -/

/-- A GPS coordinate as produced by the coordinate transformation (`lat`,
`lon`, `amsl` are Python floats). -/
structure GPSCoordinate where
  lat : PyFloat
  lon : PyFloat
  amsl : PyFloat
deriving DecidableEq

/-- Embeds `f"{home.lat:.7f},{home.lon:.7f},{home.amsl:.1f},{int(heading)}"`
(sitl.py line 90). -/
def homeAsStr (home : GPSCoordinate) (heading : PyFloat) : String :=
  formatFixed home.lat 7 ++ "," ++ formatFixed home.lon 7 ++ ","
    ++ formatFixed home.amsl 1 ++ "," ++ intStr heading.trunc

/-- Python `str.upper` (character-wise uppercasing). -/
def strUpper (s : String) : String := ⟨s.data.map Char.toUpper⟩

/-- Embeds `f"--uart{uart_id}={value}"` after `uart_id = uart_id.upper()`
(sitl.py lines 86-88). -/
def uartArg (uart_id value : String) : String :=
  "--uart" ++ strUpper uart_id ++ "=" ++ value

/-- The argument list built by `create_args_for_simulator` once the index
check has passed (sitl.py lines 68-98).  `param_file` holds `str(param_file)`
(`None` or an empty string is falsy and emits nothing); `uarts` is the
insertion-ordered dictionary; `index`, `rc_input_port` are optional ints. -/
def createArgsRest (model : String) (param_file : Option String)
    (use_console : Bool) (home : GPSCoordinate) (heading : PyFloat)
    (index : Option ℤ) (uarts : List (String × String))
    (rc_input_port : Option ℤ) (speedup : PyFloat) : List String :=
  ["-M", model, "--disable-fgview"]
    ++ (match index with
        | some i => ["-I", intStr i]
        | none => [])
    ++ (if use_console then ["-C"] else [])
    ++ (match param_file with
        | some pf => if pf = "" then [] else ["--defaults", pf]
        | none => [])
    ++ (match rc_input_port with
        | some p => ["--rc-in-port", intStr p]
        | none => [])
    ++ uarts.map (fun u => uartArg u.1 u.2)
    ++ ["--home", homeAsStr home heading]
    ++ ["--speedup", pyNumStr speedup]

/-- Embeds `index is not None and index < 0` (sitl.py lines 70-71). -/
def indexIsNegative : Option ℤ → Bool
  | some i => i < 0
  | none => false

/-- Embeds `create_args_for_simulator` (sitl.py lines 36-98): raises
`ValueError("index must be non-negative")` for a negative index, otherwise
returns the argument list. -/
def create_args_for_simulator (model : String) (param_file : Option String)
    (use_console : Bool) (home : GPSCoordinate) (heading : PyFloat)
    (index : Option ℤ) (uarts : List (String × String))
    (rc_input_port : Option ℤ) (speedup : PyFloat) :
    Except String (List String) :=
  if indexIsNegative index then .error "index must be non-negative"
  else .ok (createArgsRest model param_file use_console home heading index
    uarts rc_input_port speedup)

/-! ### `start_simulator` (sitl.py lines 101-145) -/

/-- The call made to `runner.start` (the external process supervisor's
contract, sitl.py lines 136-143). -/
structure RunnerCall where
  args : List String
  name : String
  daemon : Bool
  cwd : Option String
  stream_stdout : Bool
  use_stdin : Bool
deriving DecidableEq

/-- Embeds `start_simulator` (sitl.py lines 101-145): prepends the executable to the
simulator arguments, then decides the I/O mode by scanning the argument
vector for the literal `"-C"`: `stream_stdout = "-C" not in args`,
`use_stdin = "-C" in args` (lines 133-134). -/
def start_simulator (executable name : String) (cwd : Option String)
    (model : String) (param_file : Option String) (use_console : Bool)
    (home : GPSCoordinate) (heading : PyFloat) (index : Option ℤ)
    (uarts : List (String × String)) (rc_input_port : Option ℤ)
    (speedup : PyFloat) : Except String RunnerCall :=
  match create_args_for_simulator model param_file use_console home heading
      index uarts rc_input_port speedup with
  | .error e => .error e
  | .ok rest =>
      let args := executable :: rest
      .ok { args := args, name := name, daemon := true, cwd := cwd,
            stream_stdout := !args.contains "-C",
            use_stdin := args.contains "-C" }

/-! ### `SimulatedDroneSwarm` configuration (sitl.py lines 158-219) -/

/-- One entry of the `params` list, with the bytes it resolves to attached
(the resolver is I/O: a plain path and an `embedded://` reference both copy a
file's contents; a tuple is a name/value pair; `None` contributes nothing —
sitl.py lines 275-293). -/
inductive ParamSource where
  | pair (name : String) (value : PyFloat)
  | file (contents : String)
  | embedded (contents : String)
  | null
deriving DecidableEq

/-- Embeds `self._tcp_base_port = int(tcp_base_port) if tcp_base_port else None`
(sitl.py line 199): `0` is falsy in Python, so a zero base port is stored as
`None`. -/
def storedTcpBasePort : Option ℤ → Option ℤ
  | some p => if p = 0 then none else some p
  | none => none

/-- Embeds `float(default_heading) % 360 if default_heading is not None else
self._coordinate_system.orientation` (sitl.py lines 206-210). -/
def storedDefaultHeading : Option PyFloat → PyFloat → PyFloat
  | some h, _ => h.mod360
  | none, orientation => orientation

/-- The state `SimulatedDroneSwarm.__init__` stores (sitl.py lines 158-219),
for the fields the claims touch. -/
structure SwarmConfig where
  executable : String
  params : List ParamSource
  default_heading : PyFloat
  gcs_address : String
  multicast_address : Option String
  tcp_base_port : Option ℤ
deriving DecidableEq

/-- Embeds `SimulatedDroneSwarm.__init__` (sitl.py lines 158-219). `orientation` is
the coordinate system's orientation, used when no default heading is given. -/
def mkSwarm (executable : String) (params : List ParamSource)
    (default_heading : Option PyFloat) (orientation : PyFloat)
    (gcs_address : String) (multicast_address : Option String)
    (tcp_base_port : Option ℤ) : SwarmConfig :=
  { executable := executable
    params := params
    default_heading := storedDefaultHeading default_heading orientation
    gcs_address := gcs_address
    multicast_address := multicast_address
    tcp_base_port := storedTcpBasePort tcp_base_port }

/-! ### `_start_simulated_drone` (sitl.py lines 243-334) -/

/-- Python truthiness of the optional multicast address (`None` and `""` are
falsy). -/
def optStrTruthy : Option String → Bool
  | some s => s ≠ ""
  | none => false

/-- Python truthiness of an optional int (`None` and `0` are falsy). -/
def optIntTruthy : Option ℤ → Bool
  | some p => p ≠ 0
  | none => false

/-- Embeds `heading = float(heading) if heading is not None else
self._default_heading` (sitl.py line 260): a per-drone heading is used as
given, with no normalization. -/
def effectiveHeading : Option PyFloat → PyFloat → PyFloat
  | some h, _ => h
  | none, d => d

/-- Embeds `tcp_port = self._tcp_base_port + index - 1 if self._tcp_base_port else
None` (sitl.py line 270), applied to the stored base port. -/
def droneTcpPort (storedBase : Option ℤ) (index : ℕ) : Option ℤ :=
  match storedBase with
  | some base => some (base + index - 1)
  | none => none

/-- The bytes one parameter source contributes to the parameter file
(sitl.py lines 275-293): a name/value pair writes `f"{name}\t{value}\n"`, a
file (plain or embedded) is copied verbatim followed by one newline, `None`
writes nothing. -/
def renderParamSource : ParamSource → String
  | .pair name value => name ++ "\t" ++ pyNumStr value ++ "\n"
  | .file contents => contents ++ "\n"
  | .embedded contents => contents ++ "\n"
  | .null => ""

/-- The full contents of `default.param` written by `_start_simulated_drone`
(sitl.py lines 274-308): the resolved parameter sources in input order, then
`SYSID_THISMAV`, then — if the multicast address is truthy — the two
multicast serial lines, then — if `tcp_port` is truthy — the TCP serial
line. -/
def paramFileBytes (params : List ParamSource) (index : ℕ)
    (multicast_address : Option String) (tcp_port : Option ℤ) : String :=
  params.foldl (fun acc src => acc ++ renderParamSource src) ""
    ++ ("SYSID_THISMAV\t" ++ natStr index ++ "\n")
    ++ (if optStrTruthy multicast_address then
          "SERIAL1_PROTOCOL\t2\nSERIAL1_OPTIONS\t1024\n"
        else "")
    ++ (if optIntTruthy tcp_port then "SERIAL2_PROTOCOL\t2\n" else "")

/-- The UART role dictionary passed to `start_simulator` (sitl.py lines
320-331). -/
def uartsFor (gcs_address : String) (multicast_address : Option String)
    (tcp_port : Option ℤ) : List (String × String) :=
  [("A", "udpclient:" ++ gcs_address),
   ("C", if optStrTruthy multicast_address then
           "mcast:" ++ multicast_address.getD ""
         else "udpclient:127.0.0.1:14555"),
   ("D", if optIntTruthy tcp_port then "tcp:" ++ intStr (tcp_port.getD 0)
         else "udpclient:127.0.0.1:14552")]

/-! ### Lifecycle state machine (sitl.py lines 221-241, 243-262, 346-373)

`use()` opens a nursery and a process runner and clears both fields when it
exits; `_request_stop` asks the runner to stop and cancels the nursery's
cancel scope but does not clear the fields; `_start_simulated_drone` first
asserts that the runner (and swarm dir) are present, then draws the next
index from `itertools.count(1)`, and only then reaches its first `await` (the
`mkdir`), which — per trio's semantics — raises `Cancelled` when the
enclosing cancel scope has been cancelled.  The fallible parameter-source
resolution and file writes come after the allocation; a failure there aborts
the add without starting a process. -/

/-- How an `add_drone` call can fail. -/
inductive AddError where
  /-- The `assert self._runner is not None` guard fails (the swarm is no
  longer in use — the spec's StateError). -/
  | stateError
  /-- Trio `Cancelled` raised at the first checkpoint inside a cancelled
  cancel scope. -/
  | cancelled
  /-- Parameter-source resolution or parameter-file I/O failed (the spec's
  ResourceError). -/
  | resourceError
deriving DecidableEq

/-- The mutable state of a `SimulatedDroneSwarm` that the lifecycle claims
touch: whether `use()` is active (runner and nursery fields set), whether the
nursery's cancel scope has been cancelled, whether the runner was asked to
stop, the next value of `self._index_generator = count(1)`, and the names
(indices) of the processes submitted to the runner. -/
structure SwarmRunState where
  active : Bool
  cancelled : Bool
  stopRequested : Bool
  nextIndex : ℕ
  started : List ℕ
deriving DecidableEq

/-- The state right after `__init__` + entering `use()`: index generator at
`1`, nothing started, nothing cancelled. -/
def initialRunState : SwarmRunState :=
  { active := true, cancelled := false, stopRequested := false,
    nextIndex := 1, started := [] }

/-- Embeds `_request_stop` (sitl.py lines 236-241): when the runner and nursery
exist it asks the runner to stop and cancels the nursery's cancel scope; it
clears neither field. -/
def request_stop (s : SwarmRunState) : SwarmRunState :=
  if s.active then { s with stopRequested := true, cancelled := true } else s

/-- The `finally` block of `use()` (sitl.py lines 231-234): the nursery,
runner and swarm dir fields are cleared when the context exits. -/
def contextExit (s : SwarmRunState) : SwarmRunState :=
  { s with active := false }

deriving instance DecidableEq for Except

/-- The observable outcome of one `add_drone` call: what the call returns or
raises, which index (if any) it drew from the generator, and the state it
leaves behind. -/
structure AddResult where
  result : Except AddError ℕ
  allocated : Option ℕ
  state : SwarmRunState
deriving DecidableEq

/-- One `add_drone` call (`SimulatedDroneSwarmContext.add_drone` →
`_start_simulated_drone`, sitl.py lines 243-334).  `writes_ok` says whether
the fallible parameter-source resolution and file writes succeed.  The
asserts run first; the index is drawn before the first `await`; a cancelled
scope raises `Cancelled` at that first checkpoint; on success the process is
submitted to the runner named by its index. -/
def add_drone (s : SwarmRunState) (writes_ok : Bool) : AddResult :=
  if !s.active then ⟨.error .stateError, none, s⟩
  else
    let i := s.nextIndex
    let s' := { s with nextIndex := i + 1 }
    if s'.cancelled then ⟨.error .cancelled, some i, s'⟩
    else if !writes_ok then ⟨.error .resourceError, some i, s'⟩
    else ⟨.ok i, some i, { s' with started := s'.started ++ [i] }⟩

/-- The indices drawn from the generator by a sequence of `add_drone` calls
(one `Bool` per call: whether that call's fallible writes succeed). -/
def runIndices (s : SwarmRunState) : List Bool → List ℕ
  | [] => []
  | ok :: rest =>
      let r := add_drone s ok
      (match r.allocated with
       | some i => [i]
       | none => []) ++ runIndices r.state rest

/-- Concatenation of a list of strings (used to state the specification's
description of the parameter-file layout). -/
def strConcat : List String → String
  | [] => ""
  | s :: rest => s ++ strConcat rest

/-- The layout of the parameter file as the specification words it
(spec §4.3 / §8): caller-supplied sources rendered in input order, then
`SYSID_THISMAV`, then the multicast lines exactly when `mcConfigured`, then
the TCP serial line exactly when `portAllocated`; computed fields last.  This
definition follows the specification's words and is compared against
`paramFileBytes`, which follows the source. -/
def paramFileLayoutSpec (params : List ParamSource) (index : ℕ)
    (mcConfigured portAllocated : Bool) : String :=
  strConcat (params.map renderParamSource)
    ++ ("SYSID_THISMAV\t" ++ natStr index ++ "\n")
    ++ (if mcConfigured then "SERIAL1_PROTOCOL\t2\nSERIAL1_OPTIONS\t1024\n"
        else "")
    ++ (if portAllocated then "SERIAL2_PROTOCOL\t2\n" else "")

/-! ### Helper lemmas -/

/-- Sanity evaluations of the decimal renderer. -/
theorem natStr_eval :
    natStr 0 = "0" ∧ natStr 5761 = "5761" ∧ intStr (-12) = "-12" := by decide

/-- Sanity evaluations of round-half-to-even. -/
theorem rndHalfEven_eval :
    rndHalfEven 5 2 = 2 ∧ rndHalfEven 7 2 = 4 ∧ rndHalfEven 12345 10000 = 1
      ∧ rndHalfEven (-3) 2 = -2 := by decide

/-- Sanity evaluations of the base-2 log. -/
theorem floorLog2_eval : floorLog2 47 = 5 ∧ floorLog2 128 = 7 := by decide

/-- Literal-to-binary64 conversion, cross-checked against CPython:
`Fraction(123.45) = 8687021468732621/2**46`,
`Fraction(47.1234567) = 6632036938579053/2**47`,
`Fraction(19.7654321) = 5563474540023553/2**48`. -/
theorem ofDecimal_eval :
    PyFloat.ofDecimal 12345 2 = ⟨8687021468732621, 46⟩
    ∧ PyFloat.ofDecimal 471234567 7 = ⟨6632036938579053, 47⟩
    ∧ PyFloat.ofDecimal 197654321 7 = ⟨5563474540023553, 48⟩
    ∧ PyFloat.ofDecimal 370 0 = ⟨370 * 2 ^ 44, 44⟩
    ∧ PyFloat.ofDecimal 0 0 = ⟨0, 52⟩ := by decide

/-- Sanity evaluations of fixed-point formatting: the exact value of the
float nearest 123.45 rounds up at one decimal digit. -/
theorem formatFixed_eval :
    formatFixed ⟨8687021468732621, 46⟩ 1 = "123.5"
    ∧ formatFixed ⟨0, 0⟩ 7 = "0.0000000" := by decide

/-- Sanity evaluations of `str()` on floats. -/
theorem pyNumStr_eval :
    pyNumStr ⟨1, 0⟩ = "1" ∧ pyNumStr ⟨5, 1⟩ = "2.5"
    ∧ pyNumStr ⟨-5, 1⟩ = "-2.5" ∧ pyNumStr ⟨370 * 2 ^ 44, 44⟩ = "370" := by
  decide

/-- Sanity evaluations of float modulo 360 and truncation, cross-checked
against CPython: `370.0 % 360 == 10.0`, `-10.0 % 360 == 350.0` (both exact),
and `-2**-60 % 360 == 360.0` (the rounded correction lands on 360 exactly,
since `2^-60` is far below half an ulp of 360). -/
theorem pyFloat_mod_trunc_eval :
    PyFloat.mod360 ⟨370, 0⟩ = ⟨10, 0⟩ ∧ PyFloat.mod360 ⟨-10, 0⟩ = ⟨350, 0⟩
    ∧ PyFloat.mod360 ⟨-1, 60⟩ = ⟨360 * 2 ^ 60, 60⟩
    ∧ PyFloat.trunc ⟨2759, 0⟩ = 2759 ∧ PyFloat.trunc ⟨-15, 1⟩ = -7 := by
  decide

/-- Round-half-to-even never strays from the enclosing integer pair. -/
theorem rndHalfEven_bounds (a b : ℤ) :
    a / b ≤ rndHalfEven a b ∧ rndHalfEven a b ≤ a / b + 1 := by
  simp only [rndHalfEven]
  generalize a % b = r
  generalize a / b = f
  split
  · omega
  · split
    · omega
    · split <;> omega

/-- The fuel-driven base-2 log never overshoots: any fuel, any `n` below
`2 ^ (k + 1)`. -/
theorem floorLog2Aux_le :
    ∀ (fuel n k : ℕ), n < 2 ^ (k + 1) → floorLog2Aux fuel n ≤ k := by
  intro fuel
  induction fuel with
  | zero => intro n k _; exact Nat.zero_le k
  | succ f ih =>
      intro n k hk
      by_cases h1 : n ≤ 1
      · simp [floorLog2Aux, h1]
      · have h2 : 2 ≤ n := by omega
        have hk1 : 1 ≤ k := by
          by_contra hc
          push_neg at hc
          have hk0 : k = 0 := by omega
          rw [hk0] at hk
          norm_num at hk
          omega
        have hp : 2 ^ (k + 1) = 2 * 2 ^ k := by rw [pow_succ]; ring
        rw [hp] at hk
        have hn2 : n / 2 < 2 ^ k := by omega
        have hrec := ih (n / 2) (k - 1) (by
          have hs : k - 1 + 1 = k := by omega
          rw [hs]
          exact hn2)
        have heq : floorLog2Aux (f + 1) n = floorLog2Aux f (n / 2) + 1 := by
          simp [floorLog2Aux, h1]
        rw [heq]
        omega

theorem floorLog2_le {n k : ℕ} (h : n < 2 ^ (k + 1)) : floorLog2 n ≤ k :=
  floorLog2Aux_le n n k h

/-- The exact `fmod` remainder lies strictly between `-M` and `M`. -/
theorem fmodNum_bounds (m M : ℤ) (hM : 0 < M) :
    -M < fmodNum m M ∧ fmodNum m M < M := by
  unfold fmodNum
  split
  · have h1 : (-m) % M < M := Int.emod_lt_of_pos _ hM
    have h2 : 0 ≤ (-m) % M := Int.emod_nonneg _ hM.ne'
    omega
  · have h1 : m % M < M := Int.emod_lt_of_pos _ hM
    have h2 : 0 ≤ m % M := Int.emod_nonneg _ hM.ne'
    omega

/-- Rounding a positive dyadic below `360 · 2 ^ e` to the binary64 grid stays
within `[0, 360]`: the grid spacing divides `360 · 2 ^ e` (the numerator has
at most `e + 9` bits, so the spacing is at most `2 ^ (e + 3)` and
`360 · 2 ^ e = 45 · 2 ^ (e + 3)`), hence nearest-grid rounding cannot jump
past the grid point 360. -/
theorem roundDouble_val_bounds (v : ℤ) (e : ℕ) (hv : 0 < v)
    (hvM : v < 360 * 2 ^ e) :
    0 ≤ (roundDouble ⟨v, e⟩).val ∧ (roundDouble ⟨v, e⟩).val ≤ 360 := by
  have hpow : (0 : ℚ) < (2 : ℚ) ^ e := by positivity
  have hMq : ((360 * 2 ^ e : ℤ) : ℚ) = 360 * (2 : ℚ) ^ e := by push_cast; ring
  unfold roundDouble
  split
  · constructor
    · exact div_nonneg (by exact_mod_cast hv.le) hpow.le
    · show ((v : ℚ)) / (2 : ℚ) ^ e ≤ 360
      rw [div_le_iff₀ hpow]
      calc ((v : ℚ)) ≤ ((360 * 2 ^ e : ℤ) : ℚ) := by exact_mod_cast hvM.le
        _ = 360 * (2 : ℚ) ^ e := hMq
  · rename_i hL
    push_neg at hL
    have hvn : ((v.natAbs : ℤ)) = v := Int.natAbs_of_nonneg hv.le
    have hsign : v.sign = 1 := Int.sign_eq_one_of_pos hv
    have h9 : v.natAbs < 2 ^ (e + 8 + 1) := by
      have hz : v < (2 : ℤ) ^ (e + 9) := by
        calc v < 360 * 2 ^ e := hvM
          _ ≤ 512 * 2 ^ e := by
              have := pow_nonneg (by norm_num : (0:ℤ) ≤ 2) e
              nlinarith
          _ = (2 : ℤ) ^ (e + 9) := by rw [pow_add]; ring
      have : ((v.natAbs : ℤ)) < (2 : ℤ) ^ (e + 9) := by rw [hvn]; exact hz
      exact_mod_cast this
    have hL9 : floorLog2 v.natAbs ≤ e + 8 := floorLog2_le h9
    set L := floorLog2 v.natAbs with hLdef
    have hLe : L - 52 ≤ e + 3 := by omega
    have hdvd : (2 : ℤ) ^ (L - 52) ∣ 360 * 2 ^ e := by
      have h45 : (360 : ℤ) * 2 ^ e = 45 * 2 ^ (e + 3) := by
        rw [pow_add]; ring
      rw [h45]
      exact Dvd.dvd.mul_left (pow_dvd_pow 2 hLe) 45
    have hg : (0 : ℤ) < 2 ^ (L - 52) := by positivity
    have hrnd := rndHalfEven_bounds v (2 ^ (L - 52))
    rw [hvn, hsign] at *
    set s := rndHalfEven v (2 ^ (L - 52)) with hsdef
    have hs0 : 0 ≤ s := le_trans (Int.ediv_nonneg hv.le hg.le) hrnd.1
    have hq : v / 2 ^ (L - 52) < 360 * 2 ^ e / 2 ^ (L - 52) := by
      rw [Int.ediv_lt_iff_lt_mul hg]
      rw [Int.ediv_mul_cancel hdvd]
      exact hvM
    have hsM : s * 2 ^ (L - 52) ≤ 360 * 2 ^ e := by
      have hsq : s ≤ 360 * 2 ^ e / 2 ^ (L - 52) := by omega
      calc s * 2 ^ (L - 52) ≤ 360 * 2 ^ e / 2 ^ (L - 52) * 2 ^ (L - 52) :=
            mul_le_mul_of_nonneg_right hsq hg.le
        _ = 360 * 2 ^ e := Int.ediv_mul_cancel hdvd
    constructor
    · show (0 : ℚ) ≤ ((1 * (s * 2 ^ (L - 52)) : ℤ) : ℚ) / (2 : ℚ) ^ e
      apply div_nonneg _ hpow.le
      have : (0 : ℤ) ≤ 1 * (s * 2 ^ (L - 52)) := by positivity
      exact_mod_cast this
    · show ((1 * (s * 2 ^ (L - 52)) : ℤ) : ℚ) / (2 : ℚ) ^ e ≤ 360
      rw [div_le_iff₀ hpow]
      calc ((1 * (s * 2 ^ (L - 52)) : ℤ) : ℚ)
          ≤ ((360 * 2 ^ e : ℤ) : ℚ) := by
            rw [one_mul] at *
            exact_mod_cast hsM
        _ = 360 * (2 : ℚ) ^ e := hMq

/-- CPython's float modulus by 360 lands in `[0, 360]` — the upper endpoint
included, because the rounded `+ 360.0` correction can return exactly 360. -/
theorem mod360_val_bounds (x : PyFloat) :
    0 ≤ (PyFloat.mod360 x).val ∧ (PyFloat.mod360 x).val ≤ 360 := by
  have hM : (0 : ℤ) < 360 * 2 ^ x.e := by positivity
  have hr := fmodNum_bounds x.m (360 * 2 ^ x.e) hM
  have hpow : (0 : ℚ) < (2 : ℚ) ^ x.e := by positivity
  unfold PyFloat.mod360
  split
  · constructor
    · show (0 : ℚ) ≤ ((0 : ℤ) : ℚ) / (2 : ℚ) ^ x.e
      simp
    · show ((0 : ℤ) : ℚ) / (2 : ℚ) ^ x.e ≤ 360
      simp
  · split
    · rename_i hne hneg
      exact roundDouble_val_bounds _ x.e (by omega) (by omega)
    · rename_i hne hpos
      push_neg at hpos
      constructor
      · exact div_nonneg (by exact_mod_cast hpos) hpow.le
      · show ((fmodNum x.m (360 * 2 ^ x.e) : ℤ) : ℚ) / (2 : ℚ) ^ x.e ≤ 360
        rw [div_le_iff₀ hpow]
        calc ((fmodNum x.m (360 * 2 ^ x.e) : ℤ) : ℚ)
            ≤ ((360 * 2 ^ x.e : ℤ) : ℚ) := by exact_mod_cast hr.2.le
          _ = 360 * (2 : ℚ) ^ x.e := by push_cast; ring

theorem strConcat_nil : strConcat [] = "" := rfl

theorem foldl_append_eq_strConcat (f : ParamSource → String) :
    ∀ (l : List ParamSource) (acc : String),
      l.foldl (fun a s => a ++ f s) acc = acc ++ strConcat (l.map f) := by
  intro l
  induction l with
  | nil =>
      intro acc
      apply String.ext
      simp [strConcat, String.data_append]
  | cons x xs ih =>
      intro acc
      simp only [List.foldl_cons, List.map_cons, strConcat, ih]
      apply String.ext
      simp [String.data_append]

theorem runIndices_active (outs : List Bool) :
    ∀ s : SwarmRunState, s.active = true →
      runIndices s outs = List.range' s.nextIndex outs.length := by
  induction outs with
  | nil => intro s _; rfl
  | cons ok rest ih =>
      intro s hs
      have hact : (!s.active) = false := by rw [hs]; rfl
      simp only [runIndices, add_drone, hact, Bool.false_eq_true, if_false]
      rcases hcc : s.cancelled with _ | _ <;> rcases ok with _ | _ <;>
        simp only [hcc, if_true, if_false, Bool.not_false, Bool.not_true,
          Bool.false_eq_true, Bool.true_eq_false] <;>
        rw [List.length_cons, List.range'_succ] <;>
        exact congrArg _ (ih _ hs)

theorem str_empty_append (s : String) : "" ++ s = s := by
  apply String.ext
  rw [String.data_append]
  exact List.nil_append s.data

theorem digitChar_isDigit : ∀ d : ℕ, d < 10 → (digitChar d).isDigit = true := by
  decide

theorem natStrAux_digits : ∀ (fuel n : ℕ) (acc : List Char),
    (∀ c ∈ acc, c.isDigit = true) →
    ∀ c ∈ natStrAux fuel n acc, c.isDigit = true := by
  intro fuel
  induction fuel with
  | zero => intro n acc hacc; simpa [natStrAux] using hacc
  | succ f ih =>
      intro n acc hacc
      match n with
      | 0 => simpa [natStrAux] using hacc
      | m + 1 =>
          simp only [natStrAux]
          apply ih
          intro c hc
          rcases List.mem_cons.mp hc with h | h
          · subst h
            exact digitChar_isDigit _ (Nat.mod_lt _ (by norm_num))
          · exact hacc c h

theorem natStr_digits (n : ℕ) : ∀ c ∈ (natStr n).data, c.isDigit = true := by
  unfold natStr
  split
  · exact (by decide : ∀ c ∈ ("0" : String).data, c.isDigit = true)
  · exact natStrAux_digits n n [] (fun c hc => nomatch hc)

theorem ne_dashC_of_digits (s : String)
    (h : ∀ c ∈ s.data, c.isDigit = true) : s ≠ "-C" := by
  intro e
  have hd : ('-' : Char).isDigit = true := h '-' (by rw [e]; decide)
  exact absurd hd (by decide)

theorem natStr_ne_dashC (n : ℕ) : natStr n ≠ "-C" :=
  ne_dashC_of_digits _ (natStr_digits n)

theorem dash_append_ne_dashC (s : String) (h : s.data ≠ ['C']) :
    ("-" ++ s) ≠ "-C" := by
  intro e
  have e2 : ("-" : String).data ++ s.data = ("-C" : String).data := by
    rw [← String.data_append, e]
  have e3 : ('-' :: s.data : List Char) = ['-', 'C'] := e2
  exact h (List.cons_eq_cons.mp e3).2

theorem digits_data_ne_C (s : String)
    (h : ∀ c ∈ s.data, c.isDigit = true) : s.data ≠ ['C'] := by
  intro e
  have hC := h 'C' (by rw [e]; exact List.mem_singleton.mpr rfl)
  exact absurd hC (by decide)

theorem intStr_ne_dashC (i : ℤ) : intStr i ≠ "-C" := by
  unfold intStr
  split
  · exact dash_append_ne_dashC _ (digits_data_ne_C _ (natStr_digits _))
  · exact natStr_ne_dashC _

theorem dot_mem_withDot (m k : ℕ) (hk : k ≠ 0) : '.' ∈ (withDot m k).data := by
  unfold withDot
  rw [if_neg hk]
  simp only [String.data_append]
  exact List.mem_append.mpr (Or.inl (List.mem_append.mpr (Or.inr (by decide))))

theorem withDot_ne_dashC (m k : ℕ) : withDot m k ≠ "-C" := by
  intro e
  by_cases hk : k = 0
  · subst hk
    have hnat : natStr m = "-C" := by simpa [withDot] using e
    exact natStr_ne_dashC m hnat
  · have hdot := dot_mem_withDot m k hk
    rw [e] at hdot
    exact absurd hdot (by decide)

theorem withDot_data_ne_C (m k : ℕ) : (withDot m k).data ≠ ['C'] := by
  intro e
  by_cases hk : k = 0
  · subst hk
    have hw : withDot m 0 = natStr m := by simp [withDot]
    rw [hw] at e
    exact digits_data_ne_C _ (natStr_digits m) e
  · have hdot := dot_mem_withDot m k hk
    rw [e] at hdot
    exact absurd hdot (by decide)

theorem pyNumStrRed_ne_dashC (num : ℤ) (den : ℕ) :
    pyNumStrRed num den ≠ "-C" := by
  unfold pyNumStrRed
  split
  · exact intStr_ne_dashC _
  · split
    · split
      · exact dash_append_ne_dashC _ (withDot_data_ne_C _ _)
      · rw [str_empty_append]
        exact withDot_ne_dashC _ _
    · intro e
      have hs : '/' ∈ ((intStr num ++ "/") ++ natStr den).data := by
        simp only [String.data_append]
        exact List.mem_append.mpr
          (Or.inl (List.mem_append.mpr (Or.inr (by decide))))
      rw [e] at hs
      exact absurd hs (by decide)

theorem pyNumStr_ne_dashC (x : PyFloat) : pyNumStr x ≠ "-C" :=
  pyNumStrRed_ne_dashC _ _

theorem homeAsStr_ne_dashC (home : GPSCoordinate) (heading : PyFloat) :
    homeAsStr home heading ≠ "-C" := by
  intro e
  have h : ',' ∈ (homeAsStr home heading).data := by
    unfold homeAsStr
    simp only [String.data_append]
    exact List.mem_append.mpr
      (Or.inl (List.mem_append.mpr (Or.inr (by decide))))
  rw [e] at h
  exact absurd h (by decide)

theorem uartArg_ne_dashC (u v : String) : uartArg u v ≠ "-C" := by
  intro e
  have h := congrArg (fun s : String => s.data.length) e
  simp only [uartArg, String.data_append, List.length_append] at h
  have l1 : ("--uart" : String).data.length = 6 := by decide
  have l2 : ("=" : String).data.length = 1 := by decide
  have l3 : ("-C" : String).data.length = 2 := by decide
  rw [l1, l2, l3] at h
  omega

/-- The literal `"-C"` occurs in the full argument vector iff console mode
was requested, provided neither the executable path, the model name, nor the
parameter-file path renders as the literal `"-C"` (every other element is a
fixed flag, a rendered number, a `--uart…` assignment, or the comma-bearing
home string, none of which can be `"-C"`). -/
theorem dashC_mem_iff (exe model : String) (pf : Option String) (uc : Bool)
    (home : GPSCoordinate) (heading : PyFloat) (idx : Option ℤ)
    (uarts : List (String × String)) (rc : Option ℤ) (speedup : PyFloat)
    (hexe : exe ≠ "-C") (hm : model ≠ "-C")
    (hpf : ∀ s, pf = some s → s ≠ "-C") :
    (("-C" : String)
        ∈ exe :: createArgsRest model pf uc home heading idx uarts rc speedup)
      ↔ uc = true := by
  have hA : ("-C" : String) ∉ ["-M", model, "--disable-fgview"] := by
    intro h
    rcases List.mem_cons.mp h with h | h
    · exact absurd h (by decide)
    rcases List.mem_cons.mp h with h | h
    · exact hm h.symm
    rcases List.mem_cons.mp h with h | h
    · exact absurd h (by decide)
    · exact absurd h (List.not_mem_nil _)
  have hI : ("-C" : String)
      ∉ (match idx with | some i => ["-I", intStr i] | none => []) := by
    cases idx with
    | none => exact List.not_mem_nil _
    | some i =>
        intro h
        rcases List.mem_cons.mp h with h | h
        · exact absurd h (by decide)
        rcases List.mem_cons.mp h with h | h
        · exact intStr_ne_dashC i h.symm
        · exact absurd h (List.not_mem_nil _)
  have hP : ("-C" : String)
      ∉ (match pf with
         | some p => if p = "" then [] else ["--defaults", p]
         | none => []) := by
    cases pf with
    | none => exact List.not_mem_nil _
    | some p =>
        show ("-C" : String) ∉ (if p = "" then [] else ["--defaults", p])
        by_cases hp : p = ""
        · rw [if_pos hp]
          exact List.not_mem_nil _
        · rw [if_neg hp]
          intro h
          rcases List.mem_cons.mp h with h | h
          · exact absurd h (by decide)
          rcases List.mem_cons.mp h with h | h
          · exact hpf p rfl h.symm
          · exact absurd h (List.not_mem_nil _)
  have hR : ("-C" : String)
      ∉ (match rc with | some p => ["--rc-in-port", intStr p] | none => []) := by
    cases rc with
    | none => exact List.not_mem_nil _
    | some p =>
        intro h
        rcases List.mem_cons.mp h with h | h
        · exact absurd h (by decide)
        rcases List.mem_cons.mp h with h | h
        · exact intStr_ne_dashC p h.symm
        · exact absurd h (List.not_mem_nil _)
  have hU : ("-C" : String) ∉ uarts.map (fun u => uartArg u.1 u.2) := by
    intro h
    rcases List.mem_map.mp h with ⟨u, _, hu⟩
    exact uartArg_ne_dashC u.1 u.2 hu
  have hH : ("-C" : String) ∉ ["--home", homeAsStr home heading] := by
    intro h
    rcases List.mem_cons.mp h with h | h
    · exact absurd h (by decide)
    rcases List.mem_cons.mp h with h | h
    · exact homeAsStr_ne_dashC home heading h.symm
    · exact absurd h (List.not_mem_nil _)
  have hS : ("-C" : String) ∉ ["--speedup", pyNumStr speedup] := by
    intro h
    rcases List.mem_cons.mp h with h | h
    · exact absurd h (by decide)
    rcases List.mem_cons.mp h with h | h
    · exact pyNumStr_ne_dashC speedup h.symm
    · exact absurd h (List.not_mem_nil _)
  constructor
  · intro hmem
    rcases List.mem_cons.mp hmem with h | h
    · exact absurd h.symm hexe
    simp only [createArgsRest, List.mem_append] at h
    rcases h with ((((((h | h) | h) | h) | h) | h) | h) | h
    · exact absurd h hA
    · exact absurd h hI
    · rcases uc with _ | _
      · exact absurd h (List.not_mem_nil _)
      · rfl
    · exact absurd h hP
    · exact absurd h hR
    · exact absurd h hU
    · exact absurd h hH
    · exact absurd h hS
  · intro huc
    subst huc
    apply List.mem_cons_of_mem
    simp only [createArgsRest, List.mem_append]
    exact Or.inl (Or.inl (Or.inl (Or.inl (Or.inl (Or.inr (by simp))))))

/-! ### Claims -/

/-- C1: for every swarm instance, the indices drawn by successive `add_drone`
calls form exactly `[1, 2, …, n]` — starting at 1, increasing by 1 in call
order, with no index ever reused — independently of which calls' fallible
writes succeed or fail. -/
theorem claim_C1 (outs : List Bool) :
    runIndices initialRunState outs = List.range' 1 outs.length
      ∧ (runIndices initialRunState outs).Nodup := by
  have h := runIndices_active outs initialRunState rfl
  exact ⟨h, h ▸ List.nodup_range' 1 outs.length 1 (by norm_num)⟩

/-- C2: a swarm constructed with a positive base TCP port `b` allocates port
`b + i - 1` to the drone with index `i`; distinct indices get distinct ports;
with base port 5760 the first three drones get exactly 5760, 5761, 5762. -/
theorem claim_C2 (b : ℤ) (hb : 0 < b) :
    (∀ i : ℕ, droneTcpPort (storedTcpBasePort (some b)) i = some (b + i - 1))
    ∧ (∀ i j : ℕ, i ≠ j →
        droneTcpPort (storedTcpBasePort (some b)) i
          ≠ droneTcpPort (storedTcpBasePort (some b)) j)
    ∧ droneTcpPort (storedTcpBasePort (some 5760)) 1 = some 5760
    ∧ droneTcpPort (storedTcpBasePort (some 5760)) 2 = some 5761
    ∧ droneTcpPort (storedTcpBasePort (some 5760)) 3 = some 5762 := by
  have hstore : storedTcpBasePort (some b) = some b := by
    simp [storedTcpBasePort, hb.ne']
  refine ⟨fun i => by rw [hstore]; rfl, fun i j hij h => ?_, by decide,
    by decide, by decide⟩
  rw [hstore] at h
  simp only [droneTcpPort, Option.some.injEq] at h
  exact hij (by omega)

/-- C2 witness: base port 5760 is positive, and the first three drones'
ports are 5760, 5761, 5762. -/
theorem claim_C2_witness :
    droneTcpPort (storedTcpBasePort (some 5760)) 1 = some 5760
    ∧ droneTcpPort (storedTcpBasePort (some 5760)) 2 = some 5761
    ∧ droneTcpPort (storedTcpBasePort (some 5760)) 3 = some 5762 :=
  ⟨(claim_C2 5760 (by decide)).2.2.1, (claim_C2 5760 (by decide)).2.2.2.1,
    (claim_C2 5760 (by decide)).2.2.2.2⟩

/-- C4 counterexample: on a fresh active swarm, calling `add_drone` right
after `stop()` (while the `use()` context is still open, so the runner and
nursery fields are still set) passes the asserts, *does* draw index 1 from
the generator, and fails with trio's `Cancelled` at its first checkpoint —
not with the StateError the claim demands, and not without allocating. -/
theorem claim_C4_counterexample :
    (add_drone (request_stop initialRunState) true).result = .error .cancelled
    ∧ (add_drone (request_stop initialRunState) true).result
        ≠ .error .stateError
    ∧ (add_drone (request_stop initialRunState) true).allocated = some 1
    ∧ (add_drone (request_stop initialRunState) true).state.nextIndex = 2 := by
  decide

/-- C4 (amended): after `stop()` on an active swarm, no subsequent
`add_drone` ever starts a process.  While the `use()` context is still open
the call fails with a cancellation error at its first checkpoint — consuming
an index but submitting nothing to the runner; once the context has exited,
it fails the runner assertion (the StateError) without drawing an index and
without changing any state. -/
theorem claim_C4_amended (s : SwarmRunState) (out : Bool)
    (hs : s.active = true) :
    ((add_drone (request_stop s) out).result = .error .cancelled
      ∧ (add_drone (request_stop s) out).state.started = s.started
      ∧ (add_drone (request_stop s) out).allocated = some s.nextIndex)
    ∧ ((add_drone (contextExit (request_stop s)) out).result
          = .error .stateError
      ∧ (add_drone (contextExit (request_stop s)) out).allocated = none
      ∧ (add_drone (contextExit (request_stop s)) out).state
          = contextExit (request_stop s)) := by
  constructor
  · simp [add_drone, request_stop, hs]
  · simp [add_drone, request_stop, contextExit, hs]

/-- C4 witness: the amended statement at the fresh active swarm state. -/
theorem claim_C4_amended_witness :
    ((add_drone (request_stop initialRunState) true).result = .error .cancelled
      ∧ (add_drone (request_stop initialRunState) true).state.started
          = initialRunState.started
      ∧ (add_drone (request_stop initialRunState) true).allocated
          = some initialRunState.nextIndex)
    ∧ ((add_drone (contextExit (request_stop initialRunState)) true).result
          = .error .stateError
      ∧ (add_drone (contextExit (request_stop initialRunState)) true).allocated
          = none
      ∧ (add_drone (contextExit (request_stop initialRunState)) true).state
          = contextExit (request_stop initialRunState)) :=
  claim_C4_amended initialRunState true rfl

/-- C9 counterexample: a default heading of `-2^-60` (a genuine binary64
value, embedded as `⟨-1, 60⟩`) is stored as exactly `360.0`, not as the exact
modulus `360 - 2^-60`, and not inside `[0, 360)`: CPython's float `%`
computes the exact `fmod` (`-2^-60`) and then the *rounded* correction
`360.0 + (-2^-60)`, which rounds back to `360.0` because `2^-60` is far below
half an ulp of 360 (`2^-45`).  This refutes the claim's parenthetical "(so it
lies in [0,360))" and its "equals the supplied value modulo 360". -/
theorem claim_C9_counterexample :
    storedDefaultHeading (some ⟨-1, 60⟩) ⟨0, 0⟩ = ⟨360 * 2 ^ 60, 60⟩
    ∧ (storedDefaultHeading (some ⟨-1, 60⟩) ⟨0, 0⟩).val = 360
    ∧ ¬ (storedDefaultHeading (some ⟨-1, 60⟩) ⟨0, 0⟩).val < 360 := by
  have h1 : storedDefaultHeading (some ⟨-1, 60⟩) ⟨0, 0⟩
      = ⟨360 * 2 ^ 60, 60⟩ := by decide
  have h2 : (storedDefaultHeading (some ⟨-1, 60⟩) ⟨0, 0⟩).val = 360 := by
    rw [h1]
    show ((360 * 2 ^ 60 : ℤ) : ℚ) / (2 : ℚ) ^ 60 = 360
    norm_num
  exact ⟨h1, h2, by rw [h2]; exact lt_irrefl 360⟩

/-- C9 (amended): a default heading supplied at construction is stored as
CPython's `float(heading) % 360` — the exact `fmod` followed by one rounded
`+ 360.0` correction for negative remainders — so the stored value lies in
`[0, 360]`, with 360 itself attained for tiny negative headings; for heading
370 the stored value is exactly 10.  A heading passed explicitly to an
individual `add_drone` call is used as given without normalization, so a
per-drone heading of 370 is rendered as the integer 370, not 10. -/
theorem claim_C9_amended :
    (∀ (exe : String) (params : List ParamSource) (o : PyFloat)
        (gcs : String) (mc : Option String) (bp : Option ℤ),
      (mkSwarm exe params (some (PyFloat.ofDecimal 370 0)) o gcs mc
          bp).default_heading.val = 10)
    ∧ (∀ h o : PyFloat, 0 ≤ (storedDefaultHeading (some h) o).val
        ∧ (storedDefaultHeading (some h) o).val ≤ 360)
    ∧ (storedDefaultHeading (some ⟨-1, 60⟩) ⟨0, 0⟩).val = 360
    ∧ (∀ d : PyFloat,
        effectiveHeading (some (PyFloat.ofDecimal 370 0)) d
          = PyFloat.ofDecimal 370 0)
    ∧ (∀ d : PyFloat,
        intStr (effectiveHeading (some (PyFloat.ofDecimal 370 0)) d).trunc
          = "370") := by
  refine ⟨fun exe params o gcs mc bp => ?_, fun h o => mod360_val_bounds h,
    ?_, fun d => rfl,
    fun d => (by decide : intStr (PyFloat.ofDecimal 370 0).trunc = "370")⟩
  · have h10 : (mkSwarm exe params (some (PyFloat.ofDecimal 370 0)) o gcs mc
        bp).default_heading = ⟨10 * 2 ^ 44, 44⟩ := by
      show (PyFloat.ofDecimal 370 0).mod360 = _
      decide
    rw [h10]
    show ((10 * 2 ^ 44 : ℤ) : ℚ) / (2 : ℚ) ^ 44 = 10
    norm_num
  · have h1 : storedDefaultHeading (some ⟨-1, 60⟩) ⟨0, 0⟩
        = ⟨360 * 2 ^ 60, 60⟩ := by decide
    rw [h1]
    show ((360 * 2 ^ 60 : ℤ) : ℚ) / (2 : ℚ) ^ 60 = 360
    norm_num

/-- C10: a swarm constructed with base TCP port 0 (falsy in Python) stores
`None` and behaves exactly like a swarm with no base port: the constructed
configuration is identical, every drone's `tcp_port` is `None`, the
parameter file carries no TCP serial line (it equals the no-port file
byte-for-byte), and UART D gets the fallback UDP role. -/
theorem claim_C10 :
    storedTcpBasePort (some 0) = storedTcpBasePort none
    ∧ (∀ (exe : String) (params : List ParamSource) (dh : Option PyFloat)
        (o : PyFloat) (gcs : String) (mc : Option String),
        mkSwarm exe params dh o gcs mc (some 0) = mkSwarm exe params dh o gcs
          mc none)
    ∧ (∀ i : ℕ, droneTcpPort (storedTcpBasePort (some 0)) i = none)
    ∧ (∀ (params : List ParamSource) (i : ℕ) (mc : Option String),
        paramFileBytes params i mc (droneTcpPort (storedTcpBasePort (some 0)) i)
          = paramFileBytes params i mc none)
    ∧ (∀ (gcs : String) (mc : Option String) (i : ℕ),
        ("D", "udpclient:127.0.0.1:14552")
          ∈ uartsFor gcs mc (droneTcpPort (storedTcpBasePort (some 0)) i)) := by
  have h0 : storedTcpBasePort (some 0) = none := by decide
  refine ⟨by decide, fun exe params dh o gcs mc => ?_, fun i => by
    rw [h0]; rfl, fun params i mc => by rw [h0]; rfl, fun gcs mc i => ?_⟩
  · simp [mkSwarm, h0, storedTcpBasePort]
  · rw [h0]
    simp [uartsFor, droneTcpPort, optIntTruthy]

/-- C3: the parameter file written for a drone is byte-for-byte the
caller-supplied sources rendered in input order (file contents verbatim plus
one newline, pairs as name TAB value newline), then the `SYSID_THISMAV` line,
then the two multicast serial lines exactly when a multicast address is
configured, then the TCP serial line exactly when the drone has an allocated
TCP port — computed fields always last.  A configured multicast address is a
non-empty one, and the base port, when present, is positive (the spec's §3
invariant); without those assumptions Python truthiness and presence could
disagree. -/
theorem claim_C3 (params : List ParamSource) (i : ℕ) (hi : 1 ≤ i)
    (mc : Option String) (hmc : mc ≠ some "") (bp : Option ℤ)
    (hbp : ∀ b, bp = some b → 0 < b) :
    paramFileBytes params i mc (droneTcpPort (storedTcpBasePort bp) i)
      = paramFileLayoutSpec params i mc.isSome
          (droneTcpPort (storedTcpBasePort bp) i).isSome := by
  have hemp : ∀ s : String, "" ++ s = s := fun s => by
    apply String.ext
    simp [String.data_append]
  have hmc' : optStrTruthy mc = mc.isSome := by
    cases mc with
    | none => rfl
    | some s =>
        have hs : s ≠ "" := fun h => hmc (by rw [h])
        simp [optStrTruthy, hs]
  have hport : optIntTruthy (droneTcpPort (storedTcpBasePort bp) i)
      = (droneTcpPort (storedTcpBasePort bp) i).isSome := by
    cases bp with
    | none => rfl
    | some b =>
        have hb := hbp b rfl
        have hbne : b ≠ 0 := hb.ne'
        have hi' : (1 : ℤ) ≤ (i : ℤ) := by exact_mod_cast hi
        have hne : b + (i : ℤ) - 1 ≠ 0 := by omega
        simp [storedTcpBasePort, hbne, droneTcpPort, optIntTruthy, hne]
  unfold paramFileBytes paramFileLayoutSpec
  rw [foldl_append_eq_strConcat, hemp, hmc', hport]

/-- C3 witness: the spec §8 scenario — one file source, one key/value
override, multicast enabled, a TCP port assigned (base 5760, drone 1). -/
theorem claim_C3_witness :
    paramFileBytes [ParamSource.file "RTL_ALT\t3000",
        ParamSource.pair "SIM_SPEEDUP" ⟨5, 1⟩] 1
        (some "239.255.67.77:14555")
        (droneTcpPort (storedTcpBasePort (some 5760)) 1)
      = paramFileLayoutSpec [ParamSource.file "RTL_ALT\t3000",
          ParamSource.pair "SIM_SPEEDUP" ⟨5, 1⟩] 1
          (some "239.255.67.77:14555").isSome
          (droneTcpPort (storedTcpBasePort (some 5760)) 1).isSome :=
  claim_C3 _ 1 (by decide) _ (by decide) _ (fun b hb => by cases hb; decide)

/-- C6 counterexample: the home string rendered for `lat=47.1234567`,
`lon=19.7654321`, `amsl=123.45`, `heading=275.9` is not the claimed
`"47.1234567,19.7654321,123.4,275"`: the binary64 value nearest 123.45 is
`8687021468732621 / 2^46 ≈ 123.45000000000000284`, slightly above 123.45, so
rounding it to one decimal digit yields `123.5`, not `123.4`. -/
theorem claim_C6_counterexample :
    homeAsStr ⟨PyFloat.ofDecimal 471234567 7, PyFloat.ofDecimal 197654321 7,
        PyFloat.ofDecimal 12345 2⟩ (PyFloat.ofDecimal 2759 1)
      ≠ "47.1234567,19.7654321,123.4,275" := by decide

/-- C6 (amended): the home position is rendered as lat,lon,amsl,heading with
7 decimal digits for lat and lon, 1 for amsl, and the heading truncated to an
integer; for `lat=47.1234567, lon=19.7654321, amsl=123.45, heading=275.9` the
rendered string is exactly `"47.1234567,19.7654321,123.5,275"`. -/
theorem claim_C6 :
    homeAsStr ⟨PyFloat.ofDecimal 471234567 7, PyFloat.ofDecimal 197654321 7,
        PyFloat.ofDecimal 12345 2⟩ (PyFloat.ofDecimal 2759 1)
      = "47.1234567,19.7654321,123.5,275" := by decide

/-- C7: whenever the launch argument builder returns an argument vector, that
vector ends with `--speedup` followed by the rendered speedup factor — the
flag is emitted unconditionally, in particular when the factor is the no-op
value 1. -/
theorem claim_C7 (model : String) (pf : Option String) (uc : Bool)
    (home : GPSCoordinate) (heading : PyFloat) (idx : Option ℤ)
    (uarts : List (String × String)) (rc : Option ℤ) (speedup : PyFloat)
    (l : List String)
    (h : create_args_for_simulator model pf uc home heading idx uarts rc
        speedup = .ok l) :
    ["--speedup", pyNumStr speedup] <:+ l := by
  unfold create_args_for_simulator at h
  split at h
  · exact Except.noConfusion h
  · cases h
    simp only [createArgsRest]
    exact List.suffix_append _ _

/-- C7 witness: the default invocation (speedup factor 1, rendered `"1"`)
produces a vector ending in `--speedup 1`. -/
theorem claim_C7_witness :
    ["--speedup", "1"] <:+ ["-M", "quad", "--disable-fgview", "-I", "0",
      "--home", "0.0000000,0.0000000,0.0,0", "--speedup", "1"] :=
  claim_C7 "quad" none false ⟨⟨0, 0⟩, ⟨0, 0⟩, ⟨0, 0⟩⟩ ⟨0, 0⟩ (some 0) [] none
    ⟨1, 0⟩ _ (by decide)

/-- C8: calling the launch argument builder with a non-null negative index
raises the `ValueError` synchronously and yields no argument vector, while
any non-negative index succeeds and yields the vector. -/
theorem claim_C8 (model : String) (pf : Option String) (uc : Bool)
    (home : GPSCoordinate) (heading : PyFloat)
    (uarts : List (String × String)) (rc : Option ℤ) (speedup : PyFloat)
    (i : ℤ) :
    (i < 0 →
      create_args_for_simulator model pf uc home heading (some i) uarts rc
        speedup = .error "index must be non-negative")
    ∧ (0 ≤ i →
      create_args_for_simulator model pf uc home heading (some i) uarts rc
        speedup = .ok (createArgsRest model pf uc home heading (some i)
          uarts rc speedup)) := by
  constructor
  · intro hneg
    simp [create_args_for_simulator, indexIsNegative, hneg]
  · intro hpos
    simp [create_args_for_simulator, indexIsNegative, not_lt.mpr hpos]

/-- C8 witness: index -1 is rejected with the ValueError, index 0 succeeds. -/
theorem claim_C8_witness :
    (create_args_for_simulator "quad" none false ⟨⟨0, 0⟩, ⟨0, 0⟩, ⟨0, 0⟩⟩
        ⟨0, 0⟩ (some (-1)) [] none ⟨1, 0⟩
      = .error "index must be non-negative")
    ∧ (create_args_for_simulator "quad" none false ⟨⟨0, 0⟩, ⟨0, 0⟩, ⟨0, 0⟩⟩
        ⟨0, 0⟩ (some 0) [] none ⟨1, 0⟩
      = .ok (createArgsRest "quad" none false ⟨⟨0, 0⟩, ⟨0, 0⟩, ⟨0, 0⟩⟩ ⟨0, 0⟩
          (some 0) [] none ⟨1, 0⟩)) :=
  ⟨(claim_C8 "quad" none false ⟨⟨0, 0⟩, ⟨0, 0⟩, ⟨0, 0⟩⟩ ⟨0, 0⟩ [] none ⟨1, 0⟩
      (-1)).1 (by decide),
   (claim_C8 "quad" none false ⟨⟨0, 0⟩, ⟨0, 0⟩, ⟨0, 0⟩⟩ ⟨0, 0⟩ [] none ⟨1, 0⟩
      0).2 (by decide)⟩

/-- C5 counterexample: `start_simulator` detects console mode by scanning the
whole argument vector for the literal `"-C"`, so with console mode *not*
requested but the model named `"-C"` (which lands in the vector as the `-M`
value) the supervisor is still called with `use_stdin = true` and
`stream_stdout = false` — the claimed equivalence "regardless of the other
argument values" fails. -/
theorem claim_C5_counterexample :
    (start_simulator "sim" "1" none "-C" none false ⟨⟨0, 0⟩, ⟨0, 0⟩, ⟨0, 0⟩⟩
        ⟨0, 0⟩ (some 0) [] none ⟨1, 0⟩).map
        (fun c => (c.use_stdin, c.stream_stdout)) = .ok (true, false) := by
  decide

/-- C5 (amended): console mode and streamed-stdout mode are mutually
exclusive — the supervisor is called with `use_stdin = uc` and
`stream_stdout = !uc` where `uc` says whether console mode was requested —
provided none of the executable path, the model name, and the parameter-file
path is the literal string `"-C"` (the sentinel the code scans the vector
for), and the index is not negative (else no call is made at all). -/
theorem claim_C5_amended (exe name : String) (cwd : Option String)
    (model : String) (pf : Option String) (uc : Bool) (home : GPSCoordinate)
    (heading : PyFloat) (idx : Option ℤ) (uarts : List (String × String))
    (rc : Option ℤ) (speedup : PyFloat)
    (hexe : exe ≠ "-C") (hm : model ≠ "-C")
    (hpf : ∀ s, pf = some s → s ≠ "-C")
    (hidx : indexIsNegative idx = false) :
    (start_simulator exe name cwd model pf uc home heading idx uarts rc
        speedup).map (fun c => (c.use_stdin, c.stream_stdout))
      = .ok (uc, !uc) := by
  have hargs : create_args_for_simulator model pf uc home heading idx uarts
      rc speedup = .ok (createArgsRest model pf uc home heading idx uarts rc
        speedup) := by
    unfold create_args_for_simulator
    rw [hidx]
    rfl
  have hiff := dashC_mem_iff exe model pf uc home heading idx uarts rc
    speedup hexe hm hpf
  have hcont : (exe :: createArgsRest model pf uc home heading idx uarts rc
      speedup).contains "-C" = uc := by
    cases hb : (exe :: createArgsRest model pf uc home heading idx uarts rc
        speedup).contains "-C" with
    | true => exact (hiff.mp (List.elem_iff.mp hb)).symm
    | false =>
        cases hu : uc with
        | false => rfl
        | true =>
            have hmem : (exe :: createArgsRest model pf uc home heading idx
                uarts rc speedup).contains "-C" = true :=
              List.elem_iff.mpr (hiff.mpr hu)
            rw [hmem] at hb
            exact hb.symm
  unfold start_simulator
  rw [hargs]
  simp only [Except.map]
  rw [hcont]

/-- C5 witness: the amended statement at a concrete console-mode invocation
(executable `sim`, model `quad`, console requested): the supervisor gets
`use_stdin = true`, `stream_stdout = false`. -/
theorem claim_C5_witness :
    (start_simulator "sim" "1" none "quad" none true ⟨⟨0, 0⟩, ⟨0, 0⟩, ⟨0, 0⟩⟩
        ⟨0, 0⟩ (some 0) [] none ⟨1, 0⟩).map
        (fun c => (c.use_stdin, c.stream_stdout)) = .ok (true, false) :=
  claim_C5_amended "sim" "1" none "quad" none true ⟨⟨0, 0⟩, ⟨0, 0⟩, ⟨0, 0⟩⟩
    ⟨0, 0⟩ (some 0) [] none ⟨1, 0⟩ (by decide) (by decide)
    (fun s h => nomatch h) (by decide)

end APSwarm
